import Mathlib

/-!
Verification of the subsonic-deezer-proxy request router and response-merging
pipeline (src/main.py) against its natural-language specification.

The embedding models JSON documents as an inductive type, Python dicts as
association lists with insertion-order update semantics, Python string
methods (`startswith`, `replace`, `isdigit`, truthiness) as executable
functions on character lists, and each handler of src/main.py as a pure
function of its inputs plus an explicit outcome value for every outbound
HTTP call (status code, parsed payload, raised-exception flag).
-/

namespace SubsonicProxy

/-- JSON documents, as produced by `json.loads` / consumed by `JSONResponse`.
Objects are association lists in insertion order, mirroring Python dicts. -/
inductive Json where
  | null : Json
  | bool : Bool → Json
  | num : Int → Json
  | str : String → Json
  | arr : List Json → Json
  | obj : List (String × Json) → Json

/-- Whether a JSON value is `null` (Python `None`). -/
def Json.isNull : Json → Bool
  | .null => true
  | _ => false

/-- Key lookup in a JSON object (Python `d[k]` / `d.get(k)`); `none` on
non-objects or missing keys. -/
def Json.lookup : Json → String → Option Json
  | .obj fs, k => List.lookup k fs
  | _, _ => none

/-- Python dict assignment `d[k] = v` on an insertion-ordered association
list: an existing key keeps its position, a new key is appended at the end. -/
def setEntry {α : Type} : List (String × α) → String → α → List (String × α)
  | [], k, v => [(k, v)]
  | (k₁, v₁) :: fs, k, v =>
    if k₁ = k then (k, v) :: fs else (k₁, v₁) :: setEntry fs k v

/-- Python `pre` being a leading substring of the character list (helper for
`str.startswith`). -/
def leadsAux : List Char → List Char → Bool
  | [], _ => true
  | _ :: _, [] => false
  | a :: as, b :: bs => a == b && leadsAux as bs

/-- Python `s.startswith(pre)`. -/
def strStarts (s pre : String) : Bool := leadsAux pre.data s.data

/-- Removal of every (non-overlapping, left-to-right) occurrence of `pat`,
the effect of Python `s.replace(pat, '')`.  Recursion is on a fuel argument
so that the definition is structural (and hence kernel-reducible); each step
consumes at least one character, so fuel `l.length` is never exhausted and
the `0` case with a non-empty list is unreachable. -/
def removeAllFuel (pat : List Char) : Nat → List Char → List Char
  | _, [] => []
  | 0, l => l
  | fuel + 1, c :: cs =>
    if leadsAux pat (c :: cs) then removeAllFuel pat fuel (List.drop (pat.length - 1) cs)
    else c :: removeAllFuel pat fuel cs

/-- Removal of every occurrence of `pat` (Python `replace(pat, '')`). -/
def removeAll (pat l : List Char) : List Char := removeAllFuel pat l.length l

/-- Python `s.replace(pat, '')`. -/
def removeOcc (s pat : String) : String := String.mk (removeAll pat.data s.data)

/-- Python `s.isdigit()` (ASCII digits; all ids in play are ASCII). -/
def pyIsDigit (s : String) : Bool := !s.data.isEmpty && s.data.all Char.isDigit

/-- Python truthiness of a string (non-empty). -/
def pyStrTruthy (s : String) : Bool := !s.data.isEmpty

/-- Python truthiness of `query_params.get(...)`: `None` and `''` are falsy. -/
def optStrTruthy : Option String → Bool
  | some s => pyStrTruthy s
  | none => false

/-- Python `s.lower()` (ASCII case folding, as used for header names). -/
def lowerStr (s : String) : String := String.mk (s.data.map Char.toLower)

/-- Python slicing `s[:n]` (the first `n` characters). -/
def strTake (s : String) (n : Nat) : String := String.mk (s.data.take n)

/-- A Deezer `/search` track record as consumed by `format_deezer_results`
(src/main.py:170-213).  Required fields (`id`, `title`, `duration`,
`album.id`, `album.title`, `artist.id`, `artist.name`, nested objects
flattened here) are accessed with `track[...]` and must be present in a
well-formed record; `title_short`, `track_position` and `album.release_date`
are accessed with a presence test or `.get` and are optional. -/
structure DeezerTrack where
  id : Nat
  title : String
  title_short : Option String
  track_position : Option Nat
  duration : Nat
  albumId : Nat
  albumTitle : String
  release_date : Option String
  artistId : Nat
  artistName : String
deriving DecidableEq, Repr

/-- The per-track dictionary built inside the loop of `format_deezer_results`
(src/main.py:175-210), field for field in source order. -/
def format_track (track : DeezerTrack) : Json :=
  Json.obj [
    ("id", Json.str ("deezer_" ++ toString track.id)),
    ("parent", Json.str ("deezer_album_" ++ toString track.albumId)),
    ("isDir", Json.bool false),
    ("title", Json.str (match track.title_short with | some s => s | none => track.title)),
    ("album", Json.str track.albumTitle),
    ("artist", Json.str (track.artistName ++ " - deezer preview")),
    ("track", Json.num (match track.track_position with | some p => (p : Int) | none => 1)),
    ("year", Json.str (match track.release_date with
      | some s => if s = "" then "" else strTake s 4
      | none => "")),
    ("genre", Json.str "Deezer"),
    ("coverArt", Json.str ("al-" ++ toString track.albumId)),
    ("size", Json.num 1048576),
    ("contentType", Json.str "audio/mpeg"),
    ("suffix", Json.str "mp3"),
    ("transcodedContentType", Json.str "audio/mpeg"),
    ("transcodedSuffix", Json.str "mp3"),
    ("duration", Json.num track.duration),
    ("bitRate", Json.num 320),
    ("path", Json.str ("Deezer/" ++ track.artistName ++ "/" ++ track.albumTitle ++ "/"
      ++ track.title ++ ".mp3")),
    ("albumId", Json.str ("al-" ++ toString track.albumId)),
    ("artistId", Json.str ("ar-" ++ toString track.artistId)),
    ("type", Json.str "music"),
    ("isVideo", Json.bool false),
    ("created", Json.str "2023-01-01T00:00:00.000Z"),
    ("starred", Json.str "2023-01-01T00:00:00.000Z"),
    ("playCount", Json.num 0),
    ("discNumber", Json.num 1),
    ("userRating", Json.num 0),
    ("songCount", Json.num 1),
    ("played", Json.str "2023-01-01T00:00:00.000Z"),
    ("bpm", Json.num 0),
    ("comment", Json.str ""),
    ("sortName", Json.str ""),
    ("musicBrainzId", Json.str ""),
    ("genres", Json.arr [])
  ]

/-- `format_deezer_results` (src/main.py:170-213): translate every record of
the payload's `data` list (the caller passes the parsed `data` list; a
missing `data` key defaults to `[]` upstream) and wrap them as
`{"song": [...]}`. -/
def format_deezer_results (tracks : List DeezerTrack) : Json :=
  Json.obj [("song", Json.arr (tracks.map format_track))]

/-- Outcome of the Deezer `/search` HTTP call inside `get_deezer_results`
(src/main.py:146-168): either some exception was raised in the `try` block
(timeout, transport error), or a response with a status code arrived whose
body parsed to a track list (`none` = `response.json()` raised, i.e. a
malformed payload). -/
inductive DeezerSearchOutcome where
  | exn : DeezerSearchOutcome
  | response : Nat → Option (List DeezerTrack) → DeezerSearchOutcome

/-- `get_deezer_results` (src/main.py:146-168): non-200 statuses, malformed
payloads and raised exceptions all collapse to the empty result set
`{"song": []}`; a 200 with a well-formed payload is translated. -/
def get_deezer_results : DeezerSearchOutcome → Json
  | .exn => Json.obj [("song", Json.arr [])]
  | .response status parsed =>
    if status ≠ 200 then Json.obj [("song", Json.arr [])]
    else
      match parsed with
      | none => Json.obj [("song", Json.arr [])]
      | some tracks => format_deezer_results tracks

/-- `merge_search_results` (src/main.py:215-235).  The source takes a shallow
copy and mutates the nested dicts in place; the observable result is the
envelope with `searchResult3.song` extended by the Deezer songs and the three
aggregate fields recomputed.  A `subsonic-response` or `searchResult3` value
that is not a dict leaves the envelope unchanged (Python `in` on a non-dict
either answers `False` or raises, and a raise is caught by the caller which
then serves the primary response again, so the served payload is the
unchanged envelope either way).  A non-list `song` value cannot occur in a
protocol envelope and is modelled as contributing no primary songs. -/
def merge_search_results (navidrome_data deezer_data : Json) : Json :=
  match navidrome_data with
  | .obj fs =>
    match List.lookup "subsonic-response" fs with
    | some (.obj sr) =>
      match List.lookup "searchResult3" sr with
      | some (.obj res3) =>
        let dzSongs : List Json :=
          match deezer_data.lookup "song" with
          | some (.arr s) => s
          | _ => []
        let newSong : List Json :=
          match List.lookup "song" res3 with
          | some (.arr s) => s ++ dzSongs
          | some _ => dzSongs
          | none => dzSongs
        let res3a := setEntry res3 "song" (Json.arr newSong)
        let res3b := setEntry res3a "totalSongs" (Json.num newSong.length)
        let res3c := setEntry res3b "offset" (Json.num 0)
        let res3d := setEntry res3c "songCount" (Json.num newSong.length)
        Json.obj (setEntry fs "subsonic-response"
          (Json.obj (setEntry sr "searchResult3" (Json.obj res3d))))
      | _ => navidrome_data
    | _ => navidrome_data
  | _ => navidrome_data

/-- A FastAPI response object as discriminated by `handle_search_request`:
`proxy_to_navidrome` (src/main.py:82-101) builds a plain `Response` from the
upstream body, status and headers, while the merge branch builds a
`JSONResponse`.  The distinction is load-bearing: `isinstance(x, JSONResponse)`
is `False` for a plain `Response`. -/
inductive PyResponse where
  | plain : Json → Nat → List (String × String) → PyResponse
  | jsonResp : Json → Nat → PyResponse

/-- `handle_search_request` (src/main.py:103-139), after the concurrent fan
out: a Deezer-leg failure was already collapsed to `{"song": []}` (line
117-118 and inside `get_deezer_results`); then the guard of line 121 returns
any response that is not a `JSONResponse` unchanged; otherwise, when the
Deezer song list is truthy (non-empty), the merged envelope is served as a
fresh `JSONResponse` (status 200), else the primary response is served
unchanged.  Note `proxy_to_navidrome` only ever produces `PyResponse.plain`,
so in the application the guard always takes the first branch. -/
def handle_search_request (navidrome_response : PyResponse)
    (deezer : DeezerSearchOutcome) : PyResponse :=
  let deezer_results := get_deezer_results deezer
  match navidrome_response with
  | PyResponse.plain _ _ _ => navidrome_response
  | PyResponse.jsonResp navidrome_data _ =>
    match deezer_results.lookup "song" with
    | some (Json.arr (_ :: _)) =>
        PyResponse.jsonResp (merge_search_results navidrome_data deezer_results) 200
    | _ => navidrome_response

/-- The `searchResult3` object of an envelope, when the envelope has the
protocol shape. -/
def searchResult3Of (j : Json) : Option (List (String × Json)) :=
  match j with
  | .obj fs =>
    match List.lookup "subsonic-response" fs with
    | some (.obj sr) =>
      match List.lookup "searchResult3" sr with
      | some (.obj r) => some r
      | _ => none
    | _ => none
  | _ => none

/-- `CACHE_TIMEOUT` (src/main.py:27), in seconds. -/
def CACHE_TIMEOUT : Nat := 300

/-- The cache-read idiom used at src/main.py:52-56 and 241-244: a present
entry is served only when `time.time() - cache_time < CACHE_TIMEOUT`, else it
is treated as absent.  `search_cache` is a single dict whose keys are
namespaced by purpose; it is modelled per value type, `α = Json` for
`search_<query>` entries and `α = List Nat` (bytes) for `cover_<albumId>`
entries.  Timestamps are seconds as `Nat`; Python compares a real-valued
difference with 300, which for `now ≥ t` agrees with truncated `Nat`
subtraction, and for the degenerate `now < t` both serve the entry. -/
def cacheLookup {α : Type} (cache : List (String × α × Nat)) (key : String)
    (now : Nat) : Option α :=
  match List.lookup key cache with
  | some (v, t) => if now - t < CACHE_TIMEOUT then some v else none
  | none => none

/-- Python truthiness plus `startswith('deezer_')` applied to
`query_params.get('id')` (src/main.py:42-43, 69-70). -/
def optIdIsDeezer : Option String → Bool
  | some t => pyStrTruthy t && strStarts t "deezer_"
  | none => false

/-- The cover-art id test of src/main.py:63. -/
def coverIdMatches (s : String) : Bool :=
  pyStrTruthy s && (strStarts s "deezer_" || strStarts s "al-" || pyIsDigit s)

/-- The album-id resolution of src/main.py:64:
`cover_id.replace('deezer_', '').replace('al-', '')`. -/
def resolveAlbumId (s : String) : String := removeOcc (removeOcc s "deezer_") "al-"

/-- The handling mode selected by the dispatcher for one request. -/
inductive Dispatch where
  | streamDeezer : String → Dispatch
  | cachedSearch : Json → Dispatch
  | freshSearch : String → Dispatch
  | deezerCover : String → Dispatch
  | favorite : String → Dispatch
  | passthrough : Dispatch

/-- The routing logic of `catch_all` (src/main.py:32-74): the four special
branches in source order, each guarded by a path test and an id/query
test, with everything else proxied to Navidrome.  The search branch performs
the TTL cache check of lines 51-56 before deciding between serving the cached
envelope and invoking `handle_search_request`. -/
def catch_all (search_cache : List (String × Json × Nat)) (now : Nat)
    (path : String) (idParam : Option String) (queryParam : Option String) : Dispatch :=
  if (strStarts path "rest/stream" || strStarts path "rest/download")
      && optIdIsDeezer idParam then
    Dispatch.streamDeezer (idParam.getD "")
  else if strStarts path "rest/search" && optStrTruthy queryParam then
    let q := queryParam.getD ""
    match cacheLookup search_cache ("search_" ++ q) now with
    | some cached => Dispatch.cachedSearch cached
    | none => Dispatch.freshSearch q
  else if strStarts path "rest/getCoverArt" && coverIdMatches (idParam.getD "") then
    Dispatch.deezerCover (resolveAlbumId (idParam.getD ""))
  else if (strStarts path "rest/setRating" || strStarts path "rest/star"
      || strStarts path "rest/unstar") && optIdIsDeezer idParam then
    Dispatch.favorite (idParam.getD "")
  else
    Dispatch.passthrough

/-- An HTTP response produced by a handler: a JSON body with a status code,
or raw image bytes with a media type and an optional Cache-Control value. -/
inductive HttpOut where
  | json : Json → Nat → HttpOut
  | image : List Nat → String → Option String → HttpOut

/-- The fixed failure envelope of `return_default_cover` (src/main.py:273-283). -/
def defaultCoverBody : Json :=
  Json.obj [("subsonic-response", Json.obj [
    ("status", Json.str "failed"),
    ("version", Json.str "1.16.1"),
    ("error", Json.obj [("code", Json.num 70), ("message", Json.str "Cover art not found")])])]

/-- `return_default_cover` (src/main.py:273-283): HTTP 404 with the fixed
protocol-failure envelope. -/
def return_default_cover : HttpOut := HttpOut.json defaultCoverBody 404

/-- Python `a or b` on two optional strings (src/main.py:252), where `None`
and `''` are falsy. -/
def pyOrOpt (a b : Option String) : Option String :=
  match a with
  | some s => if pyStrTruthy s then some s else b
  | none => b

/-- Python truthiness of the resolved cover URL (src/main.py:254). -/
def optTruthy : Option String → Bool
  | some s => pyStrTruthy s
  | none => false

/-- Outcomes of the two outbound calls made by `get_deezer_cover_art`: the
album-lookup status and the `cover_xl`/`cover_big` fields of its payload,
then the image-fetch status, bytes and content type. -/
structure CoverUpstream where
  albumStatus : Nat
  cover_xl : Option String
  cover_big : Option String
  imgStatus : Nat
  imgData : List Nat
  imgContentType : Option String
deriving DecidableEq, Repr

/-- `get_deezer_cover_art` (src/main.py:237-271), returning the response and
the cache after the call.  `raised` models an exception escaping the `try`
block (caught at line 269, before the sole cache write at line 259 has
happened).  On a fresh cache hit the stored bytes are served; otherwise the
album record and then the image are fetched, any failure falling through to
`return_default_cover` with the cache untouched. -/
def get_deezer_cover_art (search_cache : List (String × List Nat × Nat)) (now : Nat)
    (album_id : String) (raised : Bool) (up : CoverUpstream) :
    HttpOut × List (String × List Nat × Nat) :=
  if raised then (return_default_cover, search_cache)
  else
    let cache_key := "cover_" ++ album_id
    match cacheLookup search_cache cache_key now with
    | some cached => (HttpOut.image cached "image/jpeg" none, search_cache)
    | none =>
      if up.albumStatus = 200 then
        let cover_url := pyOrOpt up.cover_xl up.cover_big
        if optTruthy cover_url then
          if up.imgStatus = 200 then
            (HttpOut.image up.imgData (up.imgContentType.getD "image/jpeg")
              (some "public, max-age=86400"),
             setEntry search_cache cache_key (up.imgData, now))
          else (return_default_cover, search_cache)
        else (return_default_cover, search_cache)
      else (return_default_cover, search_cache)

/-- The success envelope returned by `trigger_deezer_download` on every path
(src/main.py:329-334, 354-359, 362-367, 371-376). -/
def okEnvelope : Json :=
  Json.obj [("subsonic-response", Json.obj [
    ("status", Json.str "ok"), ("version", Json.str "1.16.1")])]

/-- Outcome of the `addToQueue` POST inside `trigger_deezer_download`:
either an exception was raised, or a response with a status code arrived. -/
inductive QueueOutcome where
  | exn : QueueOutcome
  | status : Nat → QueueOutcome
deriving DecidableEq, Repr

/-- `trigger_deezer_download` (src/main.py:316-376).  `session_cookie` is the
result of `get_deemix_session` (itself `none` on any login failure, its
exceptions are caught internally at line 416-418).  Both the 2xx branch and
the error branch of the queue call, the missing-session branch, and the
outer exception handler all return the same success envelope. -/
def trigger_deezer_download (session_cookie : Option String) (q : QueueOutcome) : HttpOut :=
  match session_cookie with
  | none => HttpOut.json okEnvelope 200
  | some _ =>
    match q with
    | .exn => HttpOut.json okEnvelope 200
    | .status code =>
      if code = 200 ∨ code = 201 then HttpOut.json okEnvelope 200
      else HttpOut.json okEnvelope 200

/-- The forwarded request built by `proxy_to_navidrome` (src/main.py:82-101):
method, query params and body pass through; headers are those of the inbound
request minus any whose lowercased name is `host`. -/
structure ForwardedRequest where
  method : String
  params : List (String × String)
  headers : List (String × String)
  content : Option (List Nat)
deriving DecidableEq, Repr

/-- The header filter of src/main.py:93: only `host` (case-insensitively) is
dropped. -/
def forwardHeaders (hs : List (String × String)) : List (String × String) :=
  hs.filter (fun kv => !(lowerStr kv.1 == "host"))

/-- `proxy_to_navidrome`, request side (src/main.py:84-95): the body is read
and forwarded only for POST and PUT (line 87). -/
def proxy_to_navidrome (method : String) (query headers : List (String × String))
    (body : List Nat) : ForwardedRequest :=
  { method := method, params := query, headers := forwardHeaders headers,
    content := if method == "POST" || method == "PUT" then some body else none }

/-- The response relayed back by `proxy_to_navidrome` (src/main.py:97-101). -/
structure RelayedResponse where
  content : List Nat
  status : Nat
  headers : List (String × String)
deriving DecidableEq, Repr

/-- `proxy_to_navidrome`, response side (src/main.py:97-101): body, status
code and the full upstream header dict are relayed with no exclusions. -/
def relay_navidrome_response (status : Nat) (headers : List (String × String))
    (content : List Nat) : RelayedResponse :=
  { content := content, status := status, headers := headers }

/-- The protocol-envelope shape, modelled from the spec's glossary: the
nested `subsonic-response` document all protocol responses conform to (the
code's own synthetic envelopes, `okEnvelope` and `defaultCoverBody`, have
this shape).  Used to compare the top-level error body against the spec's
words. -/
def isSubsonicEnvelope (j : Json) : Bool := (j.lookup "subsonic-response").isSome

/-- The top-level exception guard of `catch_all` (src/main.py:76-78): a
handler outcome that raised with message `msg` is converted to the JSON body
`{"error": msg}` with HTTP 500; a normal outcome passes through. -/
def catch_all_guard : Except String HttpOut → HttpOut
  | .ok r => r
  | .error msg => HttpOut.json (Json.obj [("error", Json.str msg)]) 500

/-- Status code of a handler response. -/
def statusOf : HttpOut → Nat
  | .json _ s => s
  | .image _ _ _ => 200

/-- JSON body of a handler response (`null` for image responses). -/
def bodyOf : HttpOut → Json
  | .json b _ => b
  | .image _ _ _ => Json.null

/-- The `subsonic-response.error.code` field of an envelope, when present. -/
def errorCodeOf (j : Json) : Option Int :=
  match j.lookup "subsonic-response" with
  | some sr =>
    match sr.lookup "error" with
    | some e =>
      match e.lookup "code" with
      | some (Json.num n) => some n
      | _ => none
    | _ => none
  | _ => none

/-- The full field set `format_deezer_results` promises a Subsonic client
(the 34 keys of the dict built at src/main.py:175-210). -/
def requiredSongFields : List String :=
  ["id", "parent", "isDir", "title", "album", "artist", "track", "year", "genre",
   "coverArt", "size", "contentType", "suffix", "transcodedContentType",
   "transcodedSuffix", "duration", "bitRate", "path", "albumId", "artistId",
   "type", "isVideo", "created", "starred", "playCount", "discNumber",
   "userRating", "songCount", "played", "bpm", "comment", "sortName",
   "musicBrainzId", "genres"]

/-- Whether a song record carries every required field with a non-null value. -/
def hasAllRequired (j : Json) : Bool :=
  requiredSongFields.all fun k =>
    match j.lookup k with
    | some v => !v.isNull
    | none => false

/-- The `id` field of a song record, when it is a string. -/
def idFieldOf (j : Json) : Option String :=
  match j.lookup "id" with
  | some (Json.str s) => some s
  | _ => none

/-- The `artist` field of a song record, when it is a string. -/
def artistFieldOf (j : Json) : Option String :=
  match j.lookup "artist" with
  | some (Json.str s) => some s
  | _ => none

/-- The primary-server envelope of the spec's search scenario:
`{"subsonic-response": {"searchResult3": {"song": [{"id": "1"}]}}}`. -/
def scenarioEnvelope : Json :=
  Json.obj [("subsonic-response", Json.obj [("searchResult3", Json.obj [
    ("song", Json.arr [Json.obj [("id", Json.str "1")]])])])]

/-- The single catalog-provider track of the spec's search scenario. -/
def scenarioTrack : DeezerTrack :=
  { id := 3, title := "Tune", title_short := some "Tune", track_position := some 1,
    duration := 180, albumId := 8, albumTitle := "LP", release_date := some "2001-02-03",
    artistId := 4, artistName := "Ann" }

/-- A well-formed track with every optional upstream field absent. -/
def bareTrack : DeezerTrack :=
  { id := 11, title := "Bare", title_short := none, track_position := none,
    duration := 90, albumId := 5, albumTitle := "B", release_date := none,
    artistId := 6, artistName := "X" }

/-- A concrete track used to evaluate the artist annotation. -/
def previewTrack : DeezerTrack :=
  { id := 21, title := "Bohemian", title_short := none, track_position := none,
    duration := 355, albumId := 31, albumTitle := "Opera", release_date := some "1975-11-21",
    artistId := 41, artistName := "Queen" }

/-- Upstream outcomes for a cover-art request whose album record carries no
cover URL. -/
def coverNoUrl : CoverUpstream :=
  { albumStatus := 200, cover_xl := none, cover_big := none,
    imgStatus := 200, imgData := [1, 2], imgContentType := none }

/-- Upstream outcomes for a fully successful cover-art fetch. -/
def coverOk : CoverUpstream :=
  { albumStatus := 200, cover_xl := some "https://cdn/img.jpg", cover_big := none,
    imgStatus := 200, imgData := [9, 9, 9], imgContentType := some "image/jpeg" }

/-! Helper lemmas about the association-list update primitive and the
merger, shared by several results below. -/

theorem lookup_setEntry_self {α : Type} (fs : List (String × α)) (k : String) (v : α) :
    List.lookup k (setEntry fs k v) = some v := by
  induction fs with
  | nil => simp [setEntry, List.lookup]
  | cons hd tl ih =>
    obtain ⟨k₁, v₁⟩ := hd
    by_cases h : k₁ = k
    · simp [setEntry, h, List.lookup]
    · simp only [setEntry, if_neg h, List.lookup]
      have : (k == k₁) = false := by
        simp [beq_iff_eq]
        exact fun hk => h hk.symm
      simp [this, ih]

theorem lookup_setEntry_ne {α : Type} (fs : List (String × α)) (k k' : String) (v : α)
    (h : k' ≠ k) : List.lookup k' (setEntry fs k v) = List.lookup k' fs := by
  induction fs with
  | nil =>
    have hne : (k' == k) = false := by simp [beq_iff_eq]; exact h
    simp [setEntry, List.lookup, hne]
  | cons hd tl ih =>
    obtain ⟨k₁, v₁⟩ := hd
    by_cases hk : k₁ = k
    · subst hk
      have hne : (k' == k₁) = false := by simp [beq_iff_eq]; exact h
      simp [setEntry, List.lookup, hne]
    · simp only [setEntry, if_neg hk, List.lookup]
      by_cases he : k' = k₁
      · subst he
        simp
      · have hne : (k' == k₁) = false := by simp [beq_iff_eq]; exact he
        simp [hne, ih]

/-- Computation rule for `merge_search_results` on a well-shaped envelope:
the song list is extended in place and the three aggregate fields are
written, in source order.  The `song` key may be present with a list, or
absent (then `songs = []`). -/
theorem merge_spec (fs sr res3 : List (String × Json)) (songs dzSongs : List Json) (dz : Json)
    (h1 : List.lookup "subsonic-response" fs = some (Json.obj sr))
    (h2 : List.lookup "searchResult3" sr = some (Json.obj res3))
    (h3 : List.lookup "song" res3 = some (Json.arr songs) ∨
      (List.lookup "song" res3 = none ∧ songs = []))
    (hdz : dz.lookup "song" = some (Json.arr dzSongs)) :
    merge_search_results (Json.obj fs) dz =
      Json.obj (setEntry fs "subsonic-response" (Json.obj (setEntry sr "searchResult3"
        (Json.obj (setEntry (setEntry (setEntry (setEntry res3
          "song" (Json.arr (songs ++ dzSongs)))
          "totalSongs" (Json.num (songs ++ dzSongs).length))
          "offset" (Json.num 0))
          "songCount" (Json.num (songs ++ dzSongs).length)))))) := by
  rcases h3 with h3 | ⟨h3, rfl⟩ <;>
    simp [merge_search_results, h1, h2, h3, hdz]

/-! Claim theorems. -/

/-- Claim C1 (code bug).  The spec's merge scenario: primary envelope
`{"subsonic-response": {"searchResult3": {"song": [{"id": "1"}]}}}` and one
catalog-provider track.  The code serves the primary response bit-for-bit
unchanged (song list still of length 1): `proxy_to_navidrome` always builds a
plain `Response`, so the `isinstance(navidrome_response, JSONResponse)` guard
at src/main.py:121 returns early on every search, and the merge below it is
unreachable.  The second and third conjuncts show the one-song primary list
and that `merge_search_results` itself - the code's own Merger, were it
reached - produces exactly the claimed two-song, provenance-prefixed,
`totalSongs = 2` envelope. -/
theorem search_pipeline_drops_deezer_results :
    handle_search_request (PyResponse.plain scenarioEnvelope 200 [])
        (DeezerSearchOutcome.response 200 (some [scenarioTrack]))
      = PyResponse.plain scenarioEnvelope 200 [] ∧
    (∃ r, searchResult3Of scenarioEnvelope = some r ∧
      List.lookup "song" r = some (Json.arr [Json.obj [("id", Json.str "1")]])) ∧
    (∃ r, searchResult3Of (merge_search_results scenarioEnvelope
        (get_deezer_results (DeezerSearchOutcome.response 200 (some [scenarioTrack]))))
        = some r ∧
      List.lookup "song" r
        = some (Json.arr [Json.obj [("id", Json.str "1")], format_track scenarioTrack]) ∧
      List.lookup "totalSongs" r = some (Json.num 2) ∧
      List.lookup "songCount" r = some (Json.num 2) ∧
      idFieldOf (format_track scenarioTrack) = some "deezer_3" ∧
      strStarts "deezer_3" "deezer_" = true) :=
  ⟨rfl, ⟨_, rfl, rfl⟩, ⟨_, rfl, rfl, rfl, rfl, rfl, rfl⟩⟩

/-- Claim C2: on every successful merge the three aggregate fields equal the
post-merge song-list length (`offset = 0`), and every other field of the
envelope - outside `searchResult3`'s song list and aggregates - is carried
over from the primary server's envelope unchanged. -/
theorem merge_counts_equal_length_and_metadata_preserved
    (fs sr res3 : List (String × Json)) (songs dzSongs : List Json) (dz : Json)
    (h1 : List.lookup "subsonic-response" fs = some (Json.obj sr))
    (h2 : List.lookup "searchResult3" sr = some (Json.obj res3))
    (h3 : List.lookup "song" res3 = some (Json.arr songs) ∨
      (List.lookup "song" res3 = none ∧ songs = []))
    (hdz : dz.lookup "song" = some (Json.arr dzSongs)) :
    ∃ fs' sr' res3',
      merge_search_results (Json.obj fs) dz = Json.obj fs' ∧
      List.lookup "subsonic-response" fs' = some (Json.obj sr') ∧
      List.lookup "searchResult3" sr' = some (Json.obj res3') ∧
      List.lookup "song" res3' = some (Json.arr (songs ++ dzSongs)) ∧
      List.lookup "totalSongs" res3' = some (Json.num (songs ++ dzSongs).length) ∧
      List.lookup "songCount" res3' = some (Json.num (songs ++ dzSongs).length) ∧
      List.lookup "offset" res3' = some (Json.num 0) ∧
      (∀ k, k ≠ "subsonic-response" → List.lookup k fs' = List.lookup k fs) ∧
      (∀ k, k ≠ "searchResult3" → List.lookup k sr' = List.lookup k sr) ∧
      (∀ k, k ≠ "song" → k ≠ "totalSongs" → k ≠ "offset" → k ≠ "songCount" →
        List.lookup k res3' = List.lookup k res3) := by
  refine ⟨_, _, _, merge_spec fs sr res3 songs dzSongs dz h1 h2 h3 hdz,
    lookup_setEntry_self _ _ _, lookup_setEntry_self _ _ _, ?_, ?_, ?_, ?_, ?_, ?_, ?_⟩
  · rw [lookup_setEntry_ne _ _ _ _ (by decide), lookup_setEntry_ne _ _ _ _ (by decide),
      lookup_setEntry_ne _ _ _ _ (by decide), lookup_setEntry_self]
  · rw [lookup_setEntry_ne _ _ _ _ (by decide), lookup_setEntry_ne _ _ _ _ (by decide),
      lookup_setEntry_self]
  · exact lookup_setEntry_self _ _ _
  · rw [lookup_setEntry_ne _ _ _ _ (by decide), lookup_setEntry_self]
  · intro k hk
    exact lookup_setEntry_ne _ _ _ _ hk
  · intro k hk
    exact lookup_setEntry_ne _ _ _ _ hk
  · intro k h₁ h₂ h₃ h₄
    rw [lookup_setEntry_ne _ _ _ _ h₄, lookup_setEntry_ne _ _ _ _ h₃,
      lookup_setEntry_ne _ _ _ _ h₂, lookup_setEntry_ne _ _ _ _ h₁]

/-- Witness for C2 at a concrete envelope carrying extra metadata at every
level. -/
theorem merge_counts_witness :
    ∃ fs' sr' res3',
      merge_search_results
          (Json.obj [("other", Json.str "kept"), ("subsonic-response", Json.obj
            [("status", Json.str "ok"), ("searchResult3", Json.obj
              [("song", Json.arr [Json.obj [("id", Json.str "1")]]),
               ("artist", Json.arr [])])])])
          (Json.obj [("song", Json.arr [format_track scenarioTrack])])
        = Json.obj fs' ∧
      List.lookup "subsonic-response" fs' = some (Json.obj sr') ∧
      List.lookup "searchResult3" sr' = some (Json.obj res3') ∧
      List.lookup "song" res3'
        = some (Json.arr ([Json.obj [("id", Json.str "1")]] ++ [format_track scenarioTrack])) ∧
      List.lookup "totalSongs" res3'
        = some (Json.num ([Json.obj [("id", Json.str "1")]] ++ [format_track scenarioTrack]).length) ∧
      List.lookup "songCount" res3'
        = some (Json.num ([Json.obj [("id", Json.str "1")]] ++ [format_track scenarioTrack]).length) ∧
      List.lookup "offset" res3' = some (Json.num 0) ∧
      (∀ k, k ≠ "subsonic-response" →
        List.lookup k fs' = List.lookup k [("other", Json.str "kept"), ("subsonic-response", Json.obj
          [("status", Json.str "ok"), ("searchResult3", Json.obj
            [("song", Json.arr [Json.obj [("id", Json.str "1")]]),
             ("artist", Json.arr [])])])]) ∧
      (∀ k, k ≠ "searchResult3" →
        List.lookup k sr' = List.lookup k [("status", Json.str "ok"), ("searchResult3", Json.obj
          [("song", Json.arr [Json.obj [("id", Json.str "1")]]), ("artist", Json.arr [])])]) ∧
      (∀ k, k ≠ "song" → k ≠ "totalSongs" → k ≠ "offset" → k ≠ "songCount" →
        List.lookup k res3' = List.lookup k
          [("song", Json.arr [Json.obj [("id", Json.str "1")]]), ("artist", Json.arr [])]) :=
  merge_counts_equal_length_and_metadata_preserved _ _ _ [Json.obj [("id", Json.str "1")]]
    [format_track scenarioTrack] _ rfl rfl (Or.inl rfl) rfl

/-- Claim C3: failures in the enrichment path never surface as failures of
the primary request.  A Deezer search exception, a non-200 Deezer status and
a malformed Deezer payload all leave the served response equal to the
primary server's response, unchanged; and `trigger_deezer_download` returns
the protocol-success envelope on every combination of session-acquisition
and queueing outcome. -/
theorem enrichment_failures_never_propagate :
    (∀ nav, handle_search_request nav DeezerSearchOutcome.exn = nav) ∧
    (∀ nav status parsed, status ≠ 200 →
      handle_search_request nav (DeezerSearchOutcome.response status parsed) = nav) ∧
    (∀ nav, handle_search_request nav (DeezerSearchOutcome.response 200 none) = nav) ∧
    (∀ cookie q, trigger_deezer_download cookie q = HttpOut.json okEnvelope 200) := by
  refine ⟨?_, ?_, ?_, ?_⟩
  · intro nav
    cases nav <;> rfl
  · intro nav status parsed h
    have hg : get_deezer_results (DeezerSearchOutcome.response status parsed)
        = Json.obj [("song", Json.arr [])] := by
      simp [get_deezer_results, h]
    cases nav with
    | plain b s hs => rfl
    | jsonResp b s =>
      simp only [handle_search_request, hg]
      rfl
  · intro nav
    cases nav <;> rfl
  · intro cookie q
    cases cookie with
    | none => rfl
    | some c =>
      cases q with
      | exn => rfl
      | status code =>
        simp only [trigger_deezer_download]
        split <;> rfl

/-- Witness for C3: a timed-out (exception) Deezer leg, a 500 Deezer status
and every trigger outcome, at concrete inputs. -/
theorem enrichment_failures_never_propagate_witness :
    handle_search_request (PyResponse.jsonResp scenarioEnvelope 200)
        (DeezerSearchOutcome.response 500 none)
      = PyResponse.jsonResp scenarioEnvelope 200 ∧
    handle_search_request (PyResponse.plain scenarioEnvelope 200 [])
        DeezerSearchOutcome.exn
      = PyResponse.plain scenarioEnvelope 200 [] ∧
    trigger_deezer_download none QueueOutcome.exn = HttpOut.json okEnvelope 200 ∧
    trigger_deezer_download (some "connect.sid=a") (QueueOutcome.status 503)
      = HttpOut.json okEnvelope 200 :=
  ⟨enrichment_failures_never_propagate.2.1 _ 500 none (by decide),
   enrichment_failures_never_propagate.1 _,
   enrichment_failures_never_propagate.2.2.2 none QueueOutcome.exn,
   enrichment_failures_never_propagate.2.2.2 (some "connect.sid=a") (QueueOutcome.status 503)⟩

/-- Claim C4: the Response Translator is total - it is a function on all
well-formed track records - and every record it produces carries the full
34-key required field set with non-null values; each missing optional
upstream field falls back to its documented default (full title, track
position 1, empty year). -/
theorem translator_total_required_fields :
    (∀ t : DeezerTrack, hasAllRequired (format_track t) = true) ∧
    (∀ t : DeezerTrack, t.title_short = none →
      (format_track t).lookup "title" = some (Json.str t.title)) ∧
    (∀ t : DeezerTrack, t.track_position = none →
      (format_track t).lookup "track" = some (Json.num 1)) ∧
    (∀ t : DeezerTrack, t.release_date = none →
      (format_track t).lookup "year" = some (Json.str "")) := by
  refine ⟨fun t => rfl, ?_, ?_, ?_⟩ <;>
    · intro t h
      simp only [format_track, h]
      rfl

/-- Witness for C4 at a track with every optional field absent. -/
theorem translator_total_required_fields_witness :
    hasAllRequired (format_track bareTrack) = true ∧
    (format_track bareTrack).lookup "title" = some (Json.str "Bare") ∧
    (format_track bareTrack).lookup "track" = some (Json.num 1) ∧
    (format_track bareTrack).lookup "year" = some (Json.str "") :=
  ⟨translator_total_required_fields.1 bareTrack,
   translator_total_required_fields.2.1 bareTrack rfl,
   translator_total_required_fields.2.2.1 bareTrack rfl,
   translator_total_required_fields.2.2.2 bareTrack rfl⟩

/-- Claim C5 counterexample: the display artist the code composes is
`"<artist> - deezer preview"`, not `"<artist> - preview"` as the claim
states - at a track by `Queen` the artist field reads
`"Queen - deezer preview"`. -/
theorem translator_artist_marker_cex :
    artistFieldOf (format_track previewTrack) = some "Queen - deezer preview" ∧
    artistFieldOf (format_track previewTrack) ≠ some "Queen - preview" := by
  exact ⟨rfl, by decide⟩

/-- Claim C5 (amended: the display artist is composed as
`"<artist> - deezer preview"`; all remaining mapping rules as claimed).
Title prefers the short title; year is the first four characters of the
release date, else empty; size, bitrate and content type are the fixed
constants 1048576, 320 and mp3; the protocol timestamps are the fixed
placeholder `2023-01-01T00:00:00.000Z`. -/
theorem translator_field_mapping (t : DeezerTrack) :
    (format_track t).lookup "title" = some (Json.str (t.title_short.getD t.title)) ∧
    (format_track t).lookup "artist" = some (Json.str (t.artistName ++ " - deezer preview")) ∧
    (format_track t).lookup "year" = some (Json.str (strTake (t.release_date.getD "") 4)) ∧
    (format_track t).lookup "size" = some (Json.num 1048576) ∧
    (format_track t).lookup "bitRate" = some (Json.num 320) ∧
    (format_track t).lookup "contentType" = some (Json.str "audio/mpeg") ∧
    (format_track t).lookup "suffix" = some (Json.str "mp3") ∧
    (format_track t).lookup "transcodedContentType" = some (Json.str "audio/mpeg") ∧
    (format_track t).lookup "transcodedSuffix" = some (Json.str "mp3") ∧
    (format_track t).lookup "created" = some (Json.str "2023-01-01T00:00:00.000Z") ∧
    (format_track t).lookup "starred" = some (Json.str "2023-01-01T00:00:00.000Z") ∧
    (format_track t).lookup "played" = some (Json.str "2023-01-01T00:00:00.000Z") := by
  refine ⟨?_, rfl, ?_, rfl, rfl, rfl, rfl, rfl, rfl, rfl, rfl, rfl⟩
  · cases h : t.title_short <;>
      · simp only [format_track, h, Option.getD]
        rfl
  · cases h : t.release_date with
    | none =>
      simp only [format_track, h]
      rfl
    | some s =>
      simp only [format_track, h, Option.getD]
      by_cases hs : s = ""
      · subst hs
        rfl
      · simp only [if_neg hs]
        rfl

/-- Claim C6: id parsing at the favorite-trigger endpoints is total and
unambiguous - per id string exactly one branch is taken: an id carrying the
provenance marker dispatches to the download trigger, and any other id falls
through to passthrough (no download-queue call), on all three rating/star
paths, for every cache state. -/
theorem router_favorite_id_unambiguous (cache : List (String × Json × Nat)) (now : Nat)
    (tid : String) :
    (strStarts tid "deezer_" = true →
      catch_all cache now "rest/star" (some tid) none = Dispatch.favorite tid ∧
      catch_all cache now "rest/setRating" (some tid) none = Dispatch.favorite tid ∧
      catch_all cache now "rest/unstar" (some tid) none = Dispatch.favorite tid) ∧
    (strStarts tid "deezer_" = false →
      catch_all cache now "rest/star" (some tid) none = Dispatch.passthrough ∧
      catch_all cache now "rest/setRating" (some tid) none = Dispatch.passthrough ∧
      catch_all cache now "rest/unstar" (some tid) none = Dispatch.passthrough) := by
  have e1 : strStarts "rest/star" "rest/stream" = false := by decide
  have e2 : strStarts "rest/star" "rest/download" = false := by decide
  have e3 : strStarts "rest/star" "rest/search" = false := by decide
  have e4 : strStarts "rest/star" "rest/getCoverArt" = false := by decide
  have e5 : strStarts "rest/star" "rest/setRating" = false := by decide
  have e6 : strStarts "rest/star" "rest/star" = true := by decide
  have g1 : strStarts "rest/setRating" "rest/stream" = false := by decide
  have g2 : strStarts "rest/setRating" "rest/download" = false := by decide
  have g3 : strStarts "rest/setRating" "rest/search" = false := by decide
  have g4 : strStarts "rest/setRating" "rest/getCoverArt" = false := by decide
  have g5 : strStarts "rest/setRating" "rest/setRating" = true := by decide
  have u1 : strStarts "rest/unstar" "rest/stream" = false := by decide
  have u2 : strStarts "rest/unstar" "rest/download" = false := by decide
  have u3 : strStarts "rest/unstar" "rest/search" = false := by decide
  have u4 : strStarts "rest/unstar" "rest/getCoverArt" = false := by decide
  have u5 : strStarts "rest/unstar" "rest/setRating" = false := by decide
  have u6 : strStarts "rest/unstar" "rest/star" = false := by decide
  have u7 : strStarts "rest/unstar" "rest/unstar" = true := by decide
  constructor
  · intro h
    have ht : pyStrTruthy tid = true := by
      obtain ⟨cs⟩ := tid
      cases cs with
      | nil => exact absurd h (by decide)
      | cons c cs => rfl
    refine ⟨?_, ?_, ?_⟩
    · simp [catch_all, optIdIsDeezer, optStrTruthy, ht, h, e1, e2, e3, e4, e5, e6]
    · simp [catch_all, optIdIsDeezer, optStrTruthy, ht, h, g1, g2, g3, g4, g5]
    · simp [catch_all, optIdIsDeezer, optStrTruthy, ht, h, u1, u2, u3, u4, u5, u6, u7]
  · intro h
    refine ⟨?_, ?_, ?_⟩
    · simp [catch_all, optIdIsDeezer, optStrTruthy, h, e1, e2, e3, e4, e5, e6]
    · simp [catch_all, optIdIsDeezer, optStrTruthy, h, g1, g2, g3, g4, g5]
    · simp [catch_all, optIdIsDeezer, optStrTruthy, h, u1, u2, u3, u4, u5, u6, u7]

/-- Witness for C6: a provider-marked id dispatches to the trigger, a
primary-server id passes through. -/
theorem router_favorite_id_unambiguous_witness :
    catch_all [] 0 "rest/star" (some "deezer_7") none = Dispatch.favorite "deezer_7" ∧
    catch_all [] 0 "rest/star" (some "42") none = Dispatch.passthrough :=
  ⟨((router_favorite_id_unambiguous [] 0 "deezer_7").1 (by decide)).1,
   ((router_favorite_id_unambiguous [] 0 "42").2 (by decide)).1⟩

/-- Claim C7 counterexample: forwarding drops only `Host` - a `Connection`
or `Content-Length` request header is forwarded to the primary server, and a
`Content-Encoding` response header is relayed back, contradicting the
claimed hop-by-hop exclusions. -/
theorem passthrough_hop_headers_cex :
    (proxy_to_navidrome "GET" [] [("Connection", "keep-alive"), ("Host", "proxy.local"),
        ("Content-Length", "42")] []).headers
      = [("Connection", "keep-alive"), ("Content-Length", "42")] ∧
    (relay_navidrome_response 200 [("Content-Encoding", "gzip"), ("Connection", "close")] []).headers
      = [("Content-Encoding", "gzip"), ("Connection", "close")] := by
  exact ⟨by decide, rfl⟩

/-- Claim C7 (amended: of the four claimed request-header exclusions the
code drops only `Host`, case-insensitively; the body is forwarded only for
POST and PUT; and the relayed response keeps the primary server's status,
body and complete header set with no exclusions - `Content-Length`,
`Transfer-Encoding`, `Connection` and `Content-Encoding` all pass
through). -/
theorem passthrough_forwarding (method : String) (query headers : List (String × String))
    (body : List Nat) :
    (proxy_to_navidrome method query headers body).method = method ∧
    (proxy_to_navidrome method query headers body).params = query ∧
    (∀ kv, kv ∈ (proxy_to_navidrome method query headers body).headers ↔
      kv ∈ headers ∧ lowerStr kv.1 ≠ "host") ∧
    (method = "POST" ∨ method = "PUT" →
      (proxy_to_navidrome method query headers body).content = some body) ∧
    (∀ status hs c, relay_navidrome_response status hs c
      = { content := c, status := status, headers := hs }) := by
  refine ⟨rfl, rfl, ?_, ?_, fun _ _ _ => rfl⟩
  · intro kv
    simp [proxy_to_navidrome, forwardHeaders, List.mem_filter]
  · rintro (h | h) <;> subst h <;> rfl

/-- Witness for C7 (amended) at a concrete POST. -/
theorem passthrough_forwarding_witness :
    (proxy_to_navidrome "POST" [("query", "abba")] [("Accept", "a")] [7]).content = some [7] ∧
    (proxy_to_navidrome "POST" [("query", "abba")] [("Accept", "a")] [7]).method = "POST" :=
  ⟨(passthrough_forwarding "POST" [("query", "abba")] [("Accept", "a")] [7]).2.2.2.1 (Or.inl rfl),
   (passthrough_forwarding "POST" [("query", "abba")] [("Accept", "a")] [7]).1⟩

/-- Claim C8: a cache entry stored `CACHE_TIMEOUT` (300 s) or more ago is
treated as absent even though the key is present - the lookup checks the
stored timestamp; a fresh entry is served bit-identically as stored; and on
a missing-or-stale entry the dispatcher performs the real refetch
(`freshSearch` invokes the search pipeline, and the cover handler fetches
from upstream and only then stores). -/
theorem cache_ttl_semantics :
    (∀ (α : Type) (cache : List (String × α × Nat)) (k : String) (v : α) (t now : Nat),
      List.lookup k cache = some (v, t) → CACHE_TIMEOUT ≤ now - t →
      cacheLookup cache k now = none) ∧
    (∀ (α : Type) (cache : List (String × α × Nat)) (k : String) (v : α) (t now : Nat),
      List.lookup k cache = some (v, t) → now - t < CACHE_TIMEOUT →
      cacheLookup cache k now = some v) ∧
    (∀ cache now q v, optStrTruthy (some q) = true →
      cacheLookup cache ("search_" ++ q) now = some v →
      catch_all cache now "rest/search3" none (some q) = Dispatch.cachedSearch v) ∧
    (∀ cache now q, optStrTruthy (some q) = true →
      cacheLookup cache ("search_" ++ q) now = none →
      catch_all cache now "rest/search3" none (some q) = Dispatch.freshSearch q) ∧
    (∀ cache now aid d up, cacheLookup cache ("cover_" ++ aid) now = some d →
      get_deezer_cover_art cache now aid false up = (HttpOut.image d "image/jpeg" none, cache)) ∧
    (∀ cache now aid up, cacheLookup cache ("cover_" ++ aid) now = none →
      up.albumStatus = 200 → optTruthy (pyOrOpt up.cover_xl up.cover_big) = true →
      up.imgStatus = 200 →
      get_deezer_cover_art cache now aid false up
        = (HttpOut.image up.imgData (up.imgContentType.getD "image/jpeg")
            (some "public, max-age=86400"),
           setEntry cache ("cover_" ++ aid) (up.imgData, now))) := by
  have f1 : strStarts "rest/search3" "rest/stream" = false := by decide
  have f2 : strStarts "rest/search3" "rest/download" = false := by decide
  have f3 : strStarts "rest/search3" "rest/search" = true := by decide
  refine ⟨?_, ?_, ?_, ?_, ?_, ?_⟩
  · intro α cache k v t now hl hstale
    simp only [cacheLookup, hl]
    rw [if_neg (Nat.not_lt.mpr hstale)]
  · intro α cache k v t now hl hfresh
    simp only [cacheLookup, hl]
    rw [if_pos hfresh]
  · intro cache now q v hq hl
    simp [catch_all, optIdIsDeezer, f1, f2, f3, hq, hl]
  · intro cache now q hq hl
    simp [catch_all, optIdIsDeezer, f1, f2, f3, hq, hl]
  · intro cache now aid d up hl
    simp [get_deezer_cover_art, hl]
  · intro cache now aid up hl ha hc hi
    simp [get_deezer_cover_art, hl, ha, hc, hi]

/-- Witness for C8: the same stored entry is served at 299 s and treated as
absent at 300 s; dispatcher and cover handler behave accordingly. -/
theorem cache_ttl_semantics_witness :
    cacheLookup [("search_q", (42 : Nat), 100)] "search_q" 400 = none ∧
    cacheLookup [("search_q", (42 : Nat), 100)] "search_q" 399 = some 42 ∧
    catch_all [("search_abba", Json.str "hit", 50)] 100 "rest/search3" none (some "abba")
      = Dispatch.cachedSearch (Json.str "hit") ∧
    catch_all [("search_abba", Json.str "hit", 50)] 350 "rest/search3" none (some "abba")
      = Dispatch.freshSearch "abba" ∧
    get_deezer_cover_art [("cover_8", [1], 10)] 20 "8" false coverOk
      = (HttpOut.image [1] "image/jpeg" none, [("cover_8", [1], 10)]) ∧
    get_deezer_cover_art [] 20 "8" false coverOk
      = (HttpOut.image [9, 9, 9] "image/jpeg" (some "public, max-age=86400"),
         [("cover_8", ([9, 9, 9], 20))]) :=
  ⟨cache_ttl_semantics.1 Nat _ _ 42 100 400 rfl (by decide),
   cache_ttl_semantics.2.1 Nat _ _ 42 100 399 rfl (by decide),
   cache_ttl_semantics.2.2.1 _ 100 "abba" _ rfl rfl,
   cache_ttl_semantics.2.2.2.1 _ 350 "abba" rfl rfl,
   cache_ttl_semantics.2.2.2.2.1 _ 20 "8" [1] coverOk rfl,
   cache_ttl_semantics.2.2.2.2.2 [] 20 "8" coverOk rfl rfl rfl rfl⟩

/-- Claim C9 counterexample: the top-level 500 body is `{"error": <msg>}`,
which is not protocol-shaped - it carries no `subsonic-response` envelope,
unlike the code's own synthetic success and failure envelopes. -/
theorem top_level_error_not_protocol_shaped :
    statusOf (catch_all_guard (Except.error "boom")) = 500 ∧
    isSubsonicEnvelope (bodyOf (catch_all_guard (Except.error "boom"))) = false ∧
    isSubsonicEnvelope okEnvelope = true ∧
    isSubsonicEnvelope defaultCoverBody = true :=
  ⟨rfl, rfl, rfl, rfl⟩

/-- Claim C9 (amended: every handler exception is caught at the dispatch
layer and converted to the generic JSON error body `{"error": <message>}`
with HTTP 500 - a plain JSON error object, not a protocol-shaped envelope;
no stack trace is emitted, only the exception's message string). -/
theorem top_level_errors_become_json_500 (msg : String) :
    catch_all_guard (Except.error msg)
      = HttpOut.json (Json.obj [("error", Json.str msg)]) 500 ∧
    statusOf (catch_all_guard (Except.error msg)) = 500 ∧
    isSubsonicEnvelope (bodyOf (catch_all_guard (Except.error msg))) = false ∧
    (∀ r, catch_all_guard (Except.ok r) = r) :=
  ⟨rfl, rfl, rfl, fun _ => rfl⟩

/-- Claim C10: every failing cover-art path - a raised exception, a non-200
album lookup, an album record with no usable cover URL, a non-200 image
fetch - returns the fixed 404 envelope with error code 70, with the cache
completely unchanged; and the cache is written only on the fully successful
path (fresh miss, album 200, truthy cover URL, image 200). -/
theorem cover_art_failure_paths :
    (∀ cache now aid up,
      get_deezer_cover_art cache now aid true up = (return_default_cover, cache)) ∧
    (∀ cache now aid up, cacheLookup cache ("cover_" ++ aid) now = none →
      up.albumStatus ≠ 200 →
      get_deezer_cover_art cache now aid false up = (return_default_cover, cache)) ∧
    (∀ cache now aid up, cacheLookup cache ("cover_" ++ aid) now = none →
      optTruthy (pyOrOpt up.cover_xl up.cover_big) = false →
      get_deezer_cover_art cache now aid false up = (return_default_cover, cache)) ∧
    (∀ cache now aid up, cacheLookup cache ("cover_" ++ aid) now = none →
      up.imgStatus ≠ 200 →
      get_deezer_cover_art cache now aid false up = (return_default_cover, cache)) ∧
    statusOf return_default_cover = 404 ∧
    errorCodeOf defaultCoverBody = some 70 ∧
    (∀ cache now aid raised up,
      (get_deezer_cover_art cache now aid raised up).2 = cache ∨
      (raised = false ∧ cacheLookup cache ("cover_" ++ aid) now = none ∧
       up.albumStatus = 200 ∧ optTruthy (pyOrOpt up.cover_xl up.cover_big) = true ∧
       up.imgStatus = 200 ∧
       (get_deezer_cover_art cache now aid raised up).2
         = setEntry cache ("cover_" ++ aid) (up.imgData, now))) := by
  refine ⟨fun _ _ _ _ => rfl, ?_, ?_, ?_, rfl, rfl, ?_⟩
  · intro cache now aid up hl ha
    simp [get_deezer_cover_art, hl, ha]
  · intro cache now aid up hl hc
    by_cases ha : up.albumStatus = 200
    · simp [get_deezer_cover_art, hl, ha, hc]
    · simp [get_deezer_cover_art, hl, ha]
  · intro cache now aid up hl hi
    by_cases ha : up.albumStatus = 200
    · cases hc : optTruthy (pyOrOpt up.cover_xl up.cover_big) with
      | true => simp [get_deezer_cover_art, hl, ha, hc, hi]
      | false => simp [get_deezer_cover_art, hl, ha, hc]
    · simp [get_deezer_cover_art, hl, ha]
  · intro cache now aid raised up
    cases raised with
    | true => exact Or.inl rfl
    | false =>
      cases hl : cacheLookup cache ("cover_" ++ aid) now with
      | some d =>
        left
        simp [get_deezer_cover_art, hl]
      | none =>
        by_cases ha : up.albumStatus = 200
        · cases hc : optTruthy (pyOrOpt up.cover_xl up.cover_big) with
          | true =>
            by_cases hi : up.imgStatus = 200
            · exact Or.inr ⟨rfl, rfl, ha, rfl, hi,
                by simp [get_deezer_cover_art, hl, ha, hc, hi]⟩
            · left
              simp [get_deezer_cover_art, hl, ha, hc, hi]
          | false =>
            left
            simp [get_deezer_cover_art, hl, ha, hc]
        · left
          simp [get_deezer_cover_art, hl, ha]

/-- Witness for C10: a raised exception, a no-cover-URL album and a fully
successful fetch, at concrete inputs. -/
theorem cover_art_failure_paths_witness :
    get_deezer_cover_art [] 0 "9" true coverOk = (return_default_cover, []) ∧
    get_deezer_cover_art [] 0 "9" false coverNoUrl = (return_default_cover, []) ∧
    ((get_deezer_cover_art [] 0 "9" false coverOk).2 = [] ∨
      (false = false ∧
       cacheLookup ([] : List (String × List Nat × Nat)) ("cover_" ++ "9") 0 = none ∧
       coverOk.albumStatus = 200 ∧
       optTruthy (pyOrOpt coverOk.cover_xl coverOk.cover_big) = true ∧
       coverOk.imgStatus = 200 ∧
       (get_deezer_cover_art [] 0 "9" false coverOk).2
         = setEntry [] ("cover_" ++ "9") (coverOk.imgData, 0))) :=
  ⟨cover_art_failure_paths.1 [] 0 "9" coverOk,
   cover_art_failure_paths.2.2.1 [] 0 "9" coverNoUrl rfl rfl,
   cover_art_failure_paths.2.2.2.2.2.2 [] 0 "9" false coverOk⟩

end SubsonicProxy
